import Mathlib

/-!
# Verification of the RustPython `_ctypes` FFI layer

Shallow embedding of `vm/src/stdlib/ctypes/{common,function,array,shared_lib}.rs`
into Lean 4, with theorems settling the specification claims.

Platform conventions fixed throughout (x86-64 Linux, the primary target):
`c_schar`/`c_uchar`/`c_void` have size 1, `c_short`/`c_ushort` size 2,
`c_int`/`c_uint`/`c_float` size 4, `c_long`/`c_ulong`/`c_longlong`/
`c_ulonglong`/`c_double`/pointers size 8, and `widestring::WideChar = u32`
(size 4).  Machine integers are modelled as `Int`/`Nat` with explicit range
checks and wrap-arounds; a Rust `panic!`/`unreachable!`/out-of-bounds index
is modelled as an explicit `panicked` outcome, never as a default value.
-/

namespace Ctypes

/-- The libffi base type objects that the `middle::Type` constructors used by
the source resolve to on x86-64 Linux.  Distinct constructors correspond to
distinct static `ffi_type` objects; aliases of the same object (for example
`c_long()` and `c_longlong()`, both `sint64`) are written below as
abbreviations collapsing onto one constructor, mirroring raw-pointer equality
of the static objects that `match_ffi_type!` compares. -/
inductive FfiType where
  | sint8 | uint8 | sint16 | uint16 | sint32 | uint32 | sint64 | uint64
  | float | double | longdouble | pointer | void
  deriving DecidableEq, Repr

/-- `middle::Type::c_schar()` -/
def c_schar : FfiType := .sint8
/-- `middle::Type::c_uchar()` -/
def c_uchar : FfiType := .uint8
/-- `middle::Type::i8()` -/
def i8 : FfiType := .sint8
/-- `middle::Type::c_short()` -/
def c_short : FfiType := .sint16
/-- `middle::Type::c_ushort()` -/
def c_ushort : FfiType := .uint16
/-- `middle::Type::u16()` -/
def u16 : FfiType := .uint16
/-- `middle::Type::c_int()` -/
def c_int : FfiType := .sint32
/-- `middle::Type::c_uint()` -/
def c_uint : FfiType := .uint32
/-- `middle::Type::c_long()` (64-bit Linux: `sint64`) -/
def c_long : FfiType := .sint64
/-- `middle::Type::c_longlong()` -/
def c_longlong : FfiType := .sint64
/-- `middle::Type::c_ulong()` (64-bit Linux: `uint64`) -/
def c_ulong : FfiType := .uint64
/-- `middle::Type::c_ulonglong()` -/
def c_ulonglong : FfiType := .uint64
/-- `middle::Type::f32()` -/
def f32 : FfiType := .float
/-- `middle::Type::f64()` -/
def f64 : FfiType := .double
/-- `middle::Type::longdouble()` -/
def longdouble : FfiType := .longdouble
/-- `middle::Type::pointer()` -/
def pointer : FfiType := .pointer
/-- `middle::Type::void()` -/
def void : FfiType := .void

/-- `common.rs` line 17: `pub const SIMPLE_TYPE_CHARS: &str = "cbBhHiIlLdfuzZqQP?g";` -/
def SIMPLE_TYPE_CHARS : String := "cbBhHiIlLdfuzZqQP?g"

/-- `common.rs` `convert_type`: string-keyed match whose final arm is
`"P" | _ => middle::Type::void()`, so every unrecognized code falls through
to `void` without error. -/
def convert_type (ty : String) : FfiType :=
  if ty = "?" then c_uchar
  else if ty = "c" then c_schar
  else if ty = "u" then c_int
  else if ty = "b" then i8
  else if ty = "B" then c_uchar
  else if ty = "h" then c_ushort
  else if ty = "H" then u16
  else if ty = "i" then c_int
  else if ty = "I" then c_uint
  else if ty = "l" then c_long
  else if ty = "q" then c_longlong
  else if ty = "L" then c_ulong
  else if ty = "Q" then c_ulonglong
  else if ty = "f" then f32
  else if ty = "d" then f64
  else if ty = "g" then longdouble
  else if ty = "z" then pointer
  else if ty = "Z" then pointer
  else void

/-- `function.rs` `str_to_type`: expands through `match_ffi_type!` to a match
whose default arm is `unreachable!()`.  The panic on an unrecognized code is
modelled as `none`. -/
def str_to_type (ty : String) : Option FfiType :=
  if ty = "c" then some c_schar
  else if ty = "u" then some c_int
  else if ty = "b" then some i8
  else if ty = "h" then some c_short
  else if ty = "H" then some c_ushort
  else if ty = "i" then some c_int
  else if ty = "I" then some c_uint
  else if ty = "l" then some c_long
  else if ty = "q" then some c_longlong
  else if ty = "L" then some c_ulong
  else if ty = "Q" then some c_ulonglong
  else if ty = "f" then some f32
  else if ty = "d" then some f64
  else if ty = "g" then some longdouble
  else if ty = "?" ∨ ty = "B" then some c_uchar
  else if ty = "z" ∨ ty = "Z" then some pointer
  else if ty = "P" then some void
  else none

/-- `array.rs` `get_size`: expands through `os_match_type!` to
`mem::size_of` of the named C type, with an `unreachable!()` default arm
(modelled as `none`).  Sizes are the x86-64 Linux ones; note the source maps
`"d" | "g"` to `c_double` (size 8) and `"P" | "z" | "Z"` to `c_void`, whose
Rust `mem::size_of` is 1, not the pointer width. -/
def get_size (ty : String) : Option Nat :=
  if ty = "u" then some 4
  else if ty = "c" ∨ ty = "b" then some 1
  else if ty = "h" then some 2
  else if ty = "H" then some 2
  else if ty = "i" then some 4
  else if ty = "I" then some 4
  else if ty = "l" then some 8
  else if ty = "q" then some 8
  else if ty = "L" then some 8
  else if ty = "Q" then some 8
  else if ty = "f" then some 4
  else if ty = "d" ∨ ty = "g" then some 8
  else if ty = "?" ∨ ty = "B" then some 1
  else if ty = "P" ∨ ty = "z" ∨ ty = "Z" then some 1
  else none

example : convert_type "x" = .void := by decide
example : str_to_type "x" = none := by decide
example : get_size "c" = some 1 := by decide

/-- The error categories the embedded operations raise (the source surfaces
them as Python `ValueError` / `RuntimeError` objects with the quoted
messages). -/
inductive CtypesError where
  /-- `"byte string too long"` / `"string too long"` (a `ValueError`) -/
  | valueTooLong
  /-- arity mismatch: `"this function takes at least N arguments (M given)"`,
  carrying the expected and given counts that the message reports -/
  | arityMismatch (expected given : Nat)
  /-- `"The library has been closed"` -/
  | libraryClosed
  /-- an argument failed integer range conversion in `try_from_object` -/
  | conversionError
  deriving DecidableEq, Repr

/-- Outcome of running a fallible piece of Rust: normal return, a raised
Python-level error, or a Rust panic (index out of bounds, `unreachable!`,
`unwrap` on `None`/`Err`). -/
inductive ExecResult (α : Type) where
  | ok (a : α)
  | err (e : CtypesError)
  | panicked
  deriving DecidableEq, Repr

/-- A byte of a Rust allocation: `none` models an uninitialized byte (memory
reserved by `Vec::with_capacity` but never written), `some v` a byte holding
value `v`. -/
abbrev MemByte := Option Nat

/-- `basics.rs` / `array.rs` `RawBuffer`: a raw pointer plus a size field.
`inner` is the byte region the pointer addresses. -/
structure RawBuffer where
  inner : List MemByte
  size : Nat
  deriving DecidableEq, Repr

/-- `array.rs` `PyCArray`: the element type-code string and element count. -/
structure PyCArray where
  _type_ : String
  _length_ : Nat
  deriving DecidableEq, Repr

/-- `array.rs` `make_array_with_lenght` (sic): computes
`itemsize = get_size(subletter)`, builds the `PyCArray`, and sets `_buffer` to
`RawBuffer { inner: Vec::with_capacity(length * itemsize).as_mut_ptr(),
size: length * itemsize }`.  `Vec::with_capacity` reserves
`length * itemsize` bytes and writes none of them, so every byte of the
region is uninitialized (`none`); the attribute-protocol plumbing
(`_type_` lookups on the class) is elided, taking the element code string
directly.  `none` models the `unreachable!()` panic of `get_size` on an
unknown code. -/
def make_array_with_lenght (subletter : String) (length : Nat) :
    Option (PyCArray × RawBuffer) :=
  match get_size subletter with
  | none => none
  | some itemsize =>
      some ({ _type_ := subletter, _length_ := length },
            { inner := List.replicate (length * itemsize) (none : MemByte),
              size := length * itemsize })

/-- A fully initialized buffer as the `value`/`raw` accessors see it through
`obj_bytes()`: a plain byte list. -/
abbrev Bytes := List Nat

/-- `array.rs` `PyCArray::value`, byte-character (`_type_ == "c"`) branch:
`split_last` the buffer; if the last byte is zero drop it, otherwise return
the whole buffer; empty buffer gives empty bytes. -/
def pyCArray_value_c (bytes : Bytes) : Bytes :=
  if bytes = [] then []
  else if bytes.getLast? = some 0 then bytes.dropLast
  else bytes

/-- Modelled from the spec (refinement target for the `value` read): decode
up to the first zero unit or the buffer end, whichever comes first, so bytes
after the first zero never appear. -/
def spec_value_truncate_at_first_zero (bytes : Bytes) : Bytes :=
  bytes.takeWhile (fun b => b ≠ 0)

/-- Rust slice element assignment `l[i] = v`: panics (here `none`) when `i`
is out of bounds. -/
def setByte (l : Bytes) (i v : Nat) : Option Bytes :=
  if i < l.length then some (l.set i v) else none

/-- Rust `dst[0..src.len()].copy_from_slice(src)` for `src.len() ≤ dst.len()`:
overwrite the first `src.length` bytes, leave the rest untouched. -/
def copyIntoStart (dst src : Bytes) : Bytes :=
  src ++ dst.drop src.length

/-- `array.rs` `PyCArray::set_value`, byte-character (`_type_ == "c"`) branch
with a `bytes` payload `value`: `my_size` is the buffer length; reject longer
payloads with `"byte string too long"`; otherwise copy the payload to the
front and, when the payload is strictly shorter, execute `bytes[my_size] = 0`
— an index equal to the slice length, hence out of bounds. -/
def pyCArray_set_value_c (buf : Bytes) (value : Bytes) : ExecResult Bytes :=
  let my_size := buf.length
  if value.length > my_size then .err .valueTooLong
  else
    let written := copyIntoStart buf value
    if value.length < my_size then
      match setByte written my_size 0 with
      | some b => .ok b
      | none => .panicked
    else .ok written

/-- `array.rs` `PyCArray::raw` getter: the buffer's full contents,
unmodified. -/
def pyCArray_raw (buf : Bytes) : Bytes := buf

/-- `array.rs` `PyCArray::set_raw`: compare the source buffer length against
`my_size`; longer sources raise `"byte string too long"` before any write;
otherwise copy the source over the front of the buffer.  Returns the error
(if any) together with the buffer's post-state. -/
def pyCArray_set_raw (buf : Bytes) (value : Bytes) :
    Option CtypesError × Bytes :=
  let my_size := buf.length
  let new_size := value.length
  if new_size > my_size then (some .valueTooLong, buf)
  else (none, copyIntoStart buf value)

example : pyCArray_value_c [65, 0, 66] = [65, 0, 66] := by decide
example : pyCArray_set_value_c [7, 7] [65] = .panicked := by decide
example : pyCArray_set_raw [1, 2] [8, 9] = (none, [8, 9]) := by decide
example : make_array_with_lenght "c" 1 =
    some ({ _type_ := "c", _length_ := 1 }, { inner := [none], size := 1 }) := by
  decide

/-- `shared_lib.rs` `SharedLibrary`: the path string and
`lib: AtomicCell<Option<Library>>`.  The `Library` value is represented by
the address of its heap slot (the `PyRef<SharedLibrary>` allocation): that is
exactly what `get_pointer` casts to `usize`. -/
structure SharedLibrary where
  path_name : String
  lib : Option Nat
  deriving DecidableEq, Repr

/-- `shared_lib.rs` `SharedLibrary::get_pointer`: address of the contained
`Library` when open, `null()` (0) when closed. -/
def SharedLibrary.get_pointer (s : SharedLibrary) : Nat :=
  match s.lib with
  | some addr => addr
  | none => 0

/-- `shared_lib.rs` `SharedLibrary::is_closed`: `lib.is_none()`. -/
def SharedLibrary.is_closed (s : SharedLibrary) : Bool :=
  s.lib.isNone

/-- `shared_lib.rs` `SharedLibrary::close`: take and drop the library,
leaving `None`. -/
def SharedLibrary.close (s : SharedLibrary) : SharedLibrary :=
  { s with lib := none }

/-- Native symbol lookup trace event: `inner.get(name)` on the loaded
library. -/
inductive SymEvent where
  | nativeLookup (name : String)
  deriving DecidableEq, Repr

/-- `shared_lib.rs` `SharedLibrary::get_sym`: if the library is closed,
return `Err("The library has been closed")` before touching the native
handle; otherwise perform the native lookup (`syms` is the library's export
table) and propagate its result.  The second component is the trace of
native lookups performed. -/
def SharedLibrary.get_sym (s : SharedLibrary) (name : String)
    (syms : String → Option Nat) :
    ExecResult Nat × List SymEvent :=
  match s.lib with
  | none => (.err .libraryClosed, [])
  | some _ =>
      match syms name with
      | some p => (.ok p, [.nativeLookup name])
      | none => (.err .conversionError, [.nativeLookup name])

/-- `shared_lib.rs` `ExternalLibs`: `HashMap<usize, PyRef<SharedLibrary>>`
modelled as an association list, plus the allocator cursor handing out fresh
heap addresses.  Every `SharedLibrary::new` allocates a fresh `Library`
whose address differs from every address already stored in the map (those
allocations are kept alive by their `PyRef`s), which the model realizes by
an increasing counter starting above all stored keys. -/
structure ExternalLibs where
  libraries : List (Nat × SharedLibrary)
  next_addr : Nat
  deriving DecidableEq, Repr

/-- Empty cache; addresses start at 1 (0 is the null pointer of a closed
library). -/
def ExternalLibs.new : ExternalLibs := { libraries := [], next_addr := 1 }

/-- Association-list update mirroring `HashMap::insert`. -/
def assocInsert (l : List (Nat × SharedLibrary)) (k : Nat) (v : SharedLibrary) :
    List (Nat × SharedLibrary) :=
  match l with
  | [] => [(k, v)]
  | (k0, v0) :: rest =>
      if k0 = k then (k, v) :: rest else (k0, v0) :: assocInsert rest k v

/-- `shared_lib.rs` `ExternalLibs::get_or_insert_lib`: unconditionally run
`SharedLibrary::new(library_path)` (a fresh native load and a fresh
allocation), take `key = nlib.get_pointer()` — the address of the *new*
library, not the path — and look that key up: replace a closed entry,
keep an open one, insert when absent; finally return the entry now at `key`.
Returns the library handed back, the new cache state, and the advanced
allocator.  (Native load failure, the `?` on `SharedLibrary::new`, is not
modelled: the claims concern successful loads.) -/
def ExternalLibs.get_or_insert_lib (st : ExternalLibs) (library_path : String) :
    SharedLibrary × ExternalLibs :=
  let nlib : SharedLibrary := { path_name := library_path, lib := some st.next_addr }
  let key := nlib.get_pointer
  let libraries1 :=
    match (st.libraries.lookup key) with
    | some l => if l.is_closed then assocInsert st.libraries key nlib else st.libraries
    | none => assocInsert st.libraries key nlib
  let result := (libraries1.lookup key).getD nlib
  (result, { libraries := libraries1, next_addr := st.next_addr + 1 })

/-- `common.rs` `FunctionProxy`: the cache key it was created under and the
identity of the `Arc<Library>` it keeps alive. -/
structure FunctionProxy where
  _name : String
  _lib : Nat
  deriving DecidableEq, Repr

/-- `common.rs` `ExternalFunctions.functions`:
`HashMap<String, Arc<FunctionProxy>>` as an association list. -/
structure ExternalFunctions where
  functions : List (String × FunctionProxy)
  deriving DecidableEq, Repr

/-- Association-list `entry(key).or_insert(v)`: return the existing value
untouched, or insert `v` and return it. -/
def entryOrInsert (l : List (String × FunctionProxy)) (k : String)
    (v : FunctionProxy) : FunctionProxy × List (String × FunctionProxy) :=
  match l.lookup k with
  | some v0 => (v0, l)
  | none => (v, l ++ [(k, v)])

/-- `common.rs` `ExternalFunctions::get_or_insert_fn`: build the cache key
`f_name = format!("{}_{}", library_path, func_name)` — plain string
concatenation with an underscore — and `entry(f_name).or_insert` a proxy
holding that name and the given library. -/
def ExternalFunctions.get_or_insert_fn (st : ExternalFunctions)
    (func_name library_path : String) (library : Nat) :
    FunctionProxy × ExternalFunctions :=
  let f_name := library_path ++ "_" ++ func_name
  let (proxy, functions1) :=
    entryOrInsert st.functions f_name { _name := f_name, _lib := library }
  (proxy, { functions := functions1 })

example :
    (ExternalLibs.new.get_or_insert_lib "p").1.get_pointer = 1 := by decide
example :
    ((ExternalLibs.new.get_or_insert_lib "p").2.get_or_insert_lib "p").1.get_pointer = 2 := by
  decide

/-- Wrap an integer into `b`-bit two-complement signed range (the effect of
Rust `as iN` on the native return register). -/
def wrapS (b : Nat) (v : Int) : Int :=
  (v + 2 ^ (b - 1)) % 2 ^ b - 2 ^ (b - 1)

/-- Wrap an integer into `b`-bit unsigned range (Rust `as uN`). -/
def wrapU (b : Nat) (v : Int) : Int :=
  v % 2 ^ b

/-- `function.rs` `py_to_ffi`: convert one dynamic argument into the native
cell for its declared ffi type.  Dynamic values are modelled as integers
(the claims under verification exercise no float arguments).  Integer
conversions use `try_from_object`, which raises on out-of-range values
(`.err .conversionError`); the `pointer` arm calls
`usize::try_from_object(..).unwrap()`, a panic on failure; `void` passes a
null pointer. -/
def py_to_ffi (ty : FfiType) (v : Int) : ExecResult Int :=
  match ty with
  | .sint8 => if -(2 ^ 7) ≤ v ∧ v < 2 ^ 7 then .ok v else .err .conversionError
  | .sint16 => if -(2 ^ 15) ≤ v ∧ v < 2 ^ 15 then .ok v else .err .conversionError
  | .sint32 => if -(2 ^ 31) ≤ v ∧ v < 2 ^ 31 then .ok v else .err .conversionError
  | .sint64 => if -(2 ^ 63) ≤ v ∧ v < 2 ^ 63 then .ok v else .err .conversionError
  | .uint8 => if 0 ≤ v ∧ v < 2 ^ 8 then .ok v else .err .conversionError
  | .uint16 => if 0 ≤ v ∧ v < 2 ^ 16 then .ok v else .err .conversionError
  | .uint32 => if 0 ≤ v ∧ v < 2 ^ 32 then .ok v else .err .conversionError
  | .uint64 => if 0 ≤ v ∧ v < 2 ^ 64 then .ok v else .err .conversionError
  | .float => .ok v
  | .double => .ok v
  | .longdouble => .ok v
  | .pointer => if 0 ≤ v ∧ v < 2 ^ 64 then .ok v else .panicked
  | .void => .ok 0

/-- `function.rs` `Function`: target pointer, declared argument ffi types and
boxed return ffi type (`cif` is rebuilt on each call by `prep_cif`, so it is
not part of the persistent state that matters). -/
structure Function where
  pointer : Nat
  arguments : List FfiType
  return_type : FfiType
  deriving DecidableEq, Repr

/-- `function.rs` `Function::new`: store the pointer and run `str_to_type`
over every declared code (each unknown code is an `unreachable!()` panic,
hence `none` propagates). -/
def Function.new (fn_ptr : Nat) (args : List String) (ret : String) :
    Option Function :=
  match args.mapM str_to_type, str_to_type ret with
  | some arg_tys, some ret_ty =>
      some { pointer := fn_ptr, arguments := arg_tys, return_type := ret_ty }
  | _, _ => none

/-- `function.rs` `Function::set_ret`: replace the boxed return type. -/
def Function.set_ret (f : Function) (ret : String) : Option Function :=
  match str_to_type ret with
  | some ret_ty => some { f with return_type := ret_ty }
  | none => none

/-- A dynamic result value handed back to the runtime: the `void` return arm
yields `vm.ctx.none()`, every other arm boxes a number. -/
inductive DynValue where
  | noneV
  | intV (v : Int)
  deriving DecidableEq, Repr

/-- Observable effect trace of a call: the single native invocation, tagged
with the ffi return type the call interface was prepared with. -/
inductive CallEvent where
  | nativeCall (ret : FfiType)
  deriving DecidableEq, Repr

/-- Marshal the arguments in left-to-right order, stopping at the first
failure — the `collect::<Result<Vec<_>, _>>()` over
`arg_ptrs.iter().zip(self.arguments.iter_mut())` (note `zip` truncates to
the shorter list, as in the source). -/
def marshalArgs : List (Int × FfiType) → ExecResult (List Int)
  | [] => .ok []
  | (v, t) :: rest =>
      match py_to_ffi t v with
      | .ok cell =>
          match marshalArgs rest with
          | .ok cells => .ok (cell :: cells)
          | .err e => .err e
          | .panicked => .panicked
      | .err e => .err e
      | .panicked => .panicked

/-- Box the raw native return register value per the declared return type —
the `match_ffi_type!` over `*self.return_type` around `ffi_call`, with each
arm's `as` cast. -/
def boxReturn (ty : FfiType) (r : Int) : DynValue :=
  match ty with
  | .sint8 => .intV (wrapS 8 r)
  | .sint32 => .intV (wrapS 32 r)
  | .sint16 => .intV (wrapS 16 r)
  | .uint16 => .intV (wrapU 16 r)
  | .uint32 => .intV (wrapU 32 r)
  | .sint64 => .intV (wrapS 64 r)
  | .uint64 => .intV (wrapU 64 r)
  | .float => .intV r
  | .double => .intV r
  | .longdouble => .intV r
  | .uint8 => .intV (wrapU 8 r)
  | .pointer => .intV (wrapU 64 r)
  | .void => .noneV

/-- `function.rs` `Function::call`: `prep_cif` (which succeeds for the
well-formed types every `FfiType` denotes), marshal all arguments in order
(any failure aborts via `?` before the call), then `ffi_call` through the
function pointer — `native` is the native function being invoked, as a map
from marshalled cells to the raw return register — and box the result per
the return type.  The trace records the native invocation. -/
def Function.call (f : Function) (arg_ptrs : List Int)
    (native : List Int → Int) :
    ExecResult DynValue × List CallEvent :=
  match marshalArgs (arg_ptrs.zip f.arguments) with
  | .ok cells =>
      (.ok (boxReturn f.return_type (native cells)), [.nativeCall f.return_type])
  | .err e => (.err e, [])
  | .panicked => (.panicked, [])

/-- `function.rs` `Callable for PyCFuncPtr::call`: read the stored
`_argtypes_` list; if the supplied argument count differs from its length,
return the arity error (whose message reports the expected and given
counts) before anything else; otherwise extract each argument's `value`
(modelled as the integers themselves) and run `Function::call`. -/
def pyCFuncPtr_call (argtypes : List String) (f : Function)
    (args : List Int) (native : List Int → Int) :
    ExecResult DynValue × List CallEvent :=
  if args.length ≠ argtypes.length then
    (.err (.arityMismatch argtypes.length args.length), [])
  else
    f.call args native

/-- `function.rs` `PyCFuncPtr::from_dll`: the freshly constructed object
stores `_restype_ = None` and `_f = Function::new(fn_ptr, Vec::new(), "i")`
— the comment in the source reads `// put a default here`. -/
def from_dll_function (fn_ptr : Nat) : Option Function :=
  Function.new fn_ptr [] "i"

/-- `common.rs` `FunctionProxy::call` return-type selection:
`restype.and_then(|r| Some(r.as_ref())).unwrap_or("P")` — an absent restype
string defaults to the code `"P"`, and the cif is built with
`convert_type` of that code. -/
def functionProxy_effective_restype (restype : Option String) : String :=
  restype.getD "P"

example : from_dll_function 0 =
    some { pointer := 0, arguments := [], return_type := .sint32 } := by decide

/-- C1: the code violates the claim — for the string `"x"`, which is not in
the declared alphabet `SIMPLE_TYPE_CHARS`, `convert_type` silently falls
through to the default `void` type (raising no `UnknownTypeCode` error),
and `str_to_type` hits its `unreachable!()` arm and panics (modelled as
`none`). -/
theorem claim1_unknown_code_defaults_to_void_and_panics :
    SIMPLE_TYPE_CHARS.toList.contains 'x' = false ∧
    convert_type "x" = FfiType.void ∧
    str_to_type "x" = none := by
  decide

/-- C2: the code violates the claim — starting from an empty cache, opening
the canonical path `"libfoo.so"` twice without a close returns two handles
with distinct native pointers (not identity-equal), and afterwards both
handles are alive in the cache under different keys, because
`get_or_insert_lib` keys each entry by the pointer of the freshly created
library rather than by the path. -/
theorem claim2_double_open_returns_distinct_alive_handles :
    (ExternalLibs.new.get_or_insert_lib "libfoo.so").1 =
      { path_name := "libfoo.so", lib := some 1 } ∧
    ((ExternalLibs.new.get_or_insert_lib "libfoo.so").2.get_or_insert_lib "libfoo.so").1 =
      { path_name := "libfoo.so", lib := some 2 } ∧
    (ExternalLibs.new.get_or_insert_lib "libfoo.so").1 ≠
      ((ExternalLibs.new.get_or_insert_lib "libfoo.so").2.get_or_insert_lib "libfoo.so").1 ∧
    ((ExternalLibs.new.get_or_insert_lib "libfoo.so").2.get_or_insert_lib
        "libfoo.so").2.libraries =
      [(1, { path_name := "libfoo.so", lib := some 1 }),
       (2, { path_name := "libfoo.so", lib := some 2 })] ∧
    SharedLibrary.is_closed { path_name := "libfoo.so", lib := some 1 } = false ∧
    SharedLibrary.is_closed { path_name := "libfoo.so", lib := some 2 } = false := by
  decide

/-- C3: the code violates the zero-initialization half of the claim — for
length 1 and element code `"c"` the constructed buffer has the right size
(`1 × 1` byte) but its byte region is the uninitialized reservation of
`Vec::with_capacity`, not the zero-filled region the claim requires. -/
theorem claim3_array_buffer_is_uninitialized_not_zeroed :
    make_array_with_lenght "c" 1 =
      some ({ _type_ := "c", _length_ := 1 },
            { inner := [(none : MemByte)], size := 1 }) ∧
    [(none : MemByte)] ≠ List.replicate 1 (some 0 : MemByte) := by
  decide

/-- C4: the code violates the claim — for the byte-character buffer
`[65, 0, 66]`, whose first zero unit is at index 1, the claim requires the
decoded value `[65]`, but `PyCArray::value` only strips a single trailing
zero and here returns the whole buffer, so the byte `66` after the first
zero appears in the result. -/
theorem claim4_value_read_keeps_bytes_after_first_zero :
    pyCArray_value_c [65, 0, 66] = [65, 0, 66] ∧
    spec_value_truncate_at_first_zero [65, 0, 66] = [65] ∧
    pyCArray_value_c [65, 0, 66] ≠ spec_value_truncate_at_first_zero [65, 0, 66] := by
  decide

/-- C5: the code violates the claim — writing the one-byte value `[65]` into
a two-byte character buffer (encoding strictly shorter than the buffer)
executes `bytes[my_size] = 0` with `my_size` equal to the slice length, an
out-of-bounds index, so the write panics instead of zero-padding the
remainder and succeeding with buffer `[65, 0]`. -/
theorem claim5_short_value_write_panics_out_of_bounds :
    pyCArray_set_value_c [7, 7] [65] = .panicked ∧
    (ExecResult.panicked ≠ (.ok [65, 0] : ExecResult Bytes)) := by
  decide

/-- C6: writing a `raw` value longer than the buffer fails with the
too-long error and leaves every byte of the buffer unmodified; writing a
`raw` value of exactly the buffer length succeeds, and a subsequent `raw`
read returns exactly the written bytes. -/
theorem claim6_set_raw_too_long_rejected_and_exact_roundtrips
    (buf value : Bytes) :
    (value.length > buf.length →
      pyCArray_set_raw buf value = (some .valueTooLong, buf)) ∧
    (value.length = buf.length →
      pyCArray_set_raw buf value = (none, value) ∧
      pyCArray_raw value = value) := by
  constructor
  · intro h
    simp [pyCArray_set_raw, h]
  · intro h
    refine ⟨?_, rfl⟩
    simp [pyCArray_set_raw, copyIntoStart, h, List.drop_length]

/-- Witness for C6 at concrete inputs: a 3-byte write into a 2-byte buffer
is rejected with the buffer intact, and a 2-byte write into a 2-byte buffer
round-trips through `raw`. -/
theorem claim6_witness :
    (pyCArray_set_raw [1, 2] [5, 6, 7] = (some .valueTooLong, [1, 2])) ∧
    (pyCArray_set_raw [1, 2] [8, 9] = (none, [8, 9]) ∧
      pyCArray_raw [8, 9] = [8, 9]) :=
  ⟨(claim6_set_raw_too_long_rejected_and_exact_roundtrips [1, 2] [5, 6, 7]).1 (by decide),
   (claim6_set_raw_too_long_rejected_and_exact_roundtrips [1, 2] [8, 9]).2 (by decide)⟩

/-- C7: calling a `PyCFuncPtr` with an argument count different from the
declared `_argtypes_` length fails with the arity error carrying the
expected and given counts, and the event trace is empty — no native call is
performed. -/
theorem claim7_arity_mismatch_fails_without_native_call
    (argtypes : List String) (f : Function) (args : List Int)
    (native : List Int → Int)
    (h : args.length ≠ argtypes.length) :
    pyCFuncPtr_call argtypes f args native =
      (.err (.arityMismatch argtypes.length args.length), []) := by
  simp [pyCFuncPtr_call, h]

/-- Witness for C7: one argument against an empty declared list is rejected
with expected 0, given 1, and no native call. -/
theorem claim7_witness :
    (([7] : List Int).length ≠ ([] : List String).length) ∧
    pyCFuncPtr_call [] { pointer := 0, arguments := [], return_type := .sint32 }
      [7] (fun _ => 0) = (.err (.arityMismatch 0 1), []) :=
  ⟨by decide,
   claim7_arity_mismatch_fails_without_native_call []
     { pointer := 0, arguments := [], return_type := .sint32 }
     [7] (fun _ => 0) (by decide)⟩

/-- C8 counterexample: a callable built by `from_dll` whose return type is
never set performs its native call with the `c_int` type (`sint32`) — the
`"i"` default hard-coded in `from_dll` — whereas the type the code `"P"`
denotes is `void`, so the effective return type is not the one for `P`. -/
theorem claim8_counterexample_default_return_type_is_int :
    from_dll_function 7 =
      some { pointer := 7, arguments := [], return_type := .sint32 } ∧
    pyCFuncPtr_call [] { pointer := 7, arguments := [], return_type := .sint32 }
      [] (fun _ => 5) = (.ok (.intV 5), [.nativeCall .sint32]) ∧
    str_to_type "P" = some FfiType.void ∧
    FfiType.sint32 ≠ FfiType.void := by
  decide

/-- C8 amended: a callable built by `from_dll` with no return type ever set
uses the hard-coded default code `"i"` (c_int) as the effective native
return type; only the separate `FunctionProxy::call` path defaults an absent
restype string to `"P"` (whose `convert_type` image is `void`). -/
theorem claim8_amended_default_return_types :
    (∀ ptr : Nat, from_dll_function ptr =
      some { pointer := ptr, arguments := [], return_type := c_int }) ∧
    str_to_type "i" = some c_int ∧
    functionProxy_effective_restype none = "P" ∧
    convert_type (functionProxy_effective_restype none) = FfiType.void := by
  refine ⟨fun ptr => rfl, by decide, by decide, by decide⟩

/-- C9: resolving any symbol name on a closed library fails with the
library-closed error, and the native-lookup trace is empty — no native
lookup is performed, whatever the library's export table holds. -/
theorem claim9_get_sym_on_closed_library_fails
    (s : SharedLibrary) (h : s.is_closed = true) (name : String)
    (syms : String → Option Nat) :
    s.get_sym name syms = (.err .libraryClosed, []) := by
  cases hs : s.lib with
  | none => simp [SharedLibrary.get_sym, hs]
  | some a =>
      exfalso
      simp [SharedLibrary.is_closed, hs] at h

/-- Witness for C9: a concrete closed library rejects a lookup of `"f"`
even though the export table would resolve it. -/
theorem claim9_witness :
    ({ path_name := "libfoo.so", lib := none } : SharedLibrary).is_closed = true ∧
    ({ path_name := "libfoo.so", lib := none } : SharedLibrary).get_sym "f"
      (fun _ => some 3) = (.err .libraryClosed, []) :=
  ⟨by decide,
   claim9_get_sym_on_closed_library_fails
     { path_name := "libfoo.so", lib := none } (by decide) "f" (fun _ => some 3)⟩

/-- C10: the cache key is the concatenation `library_path ++ "_" ++
func_name`, so the distinct pairs `("a_b", "c")` and `("a", "b_c")` collide
on the key `"a_b_c"`: after resolving the first pair (for library 1),
resolving the second pair (for library 2) returns the proxy cached for the
first — still holding library 1 — and leaves the cache unchanged instead of
inserting a fresh entry. -/
theorem claim10_function_cache_key_collision :
    ¬ (("a_b" : String) = "a" ∧ ("c" : String) = "b_c") ∧
    ("a_b" ++ "_" ++ "c" : String) = ("a" ++ "_" ++ "b_c" : String) ∧
    (ExternalFunctions.get_or_insert_fn { functions := [] } "c" "a_b" 1).1 =
      { _name := "a_b_c", _lib := 1 } ∧
    ((ExternalFunctions.get_or_insert_fn { functions := [] } "c" "a_b" 1).2.get_or_insert_fn
        "b_c" "a" 2).1 = { _name := "a_b_c", _lib := 1 } ∧
    ((ExternalFunctions.get_or_insert_fn { functions := [] } "c" "a_b" 1).2.get_or_insert_fn
        "b_c" "a" 2).2 =
      (ExternalFunctions.get_or_insert_fn { functions := [] } "c" "a_b" 1).2 := by
  decide

end Ctypes
